import Mathlib

/-!
Shallow embedding of the placement/interaction core of the `logicism`
schematic editor (src/src/component.rs).

Canvas-space values (druid `f64`) are modelled as rationals; grid
coordinates (`Coords` from canvas.rs) as integer pairs.  The druid
context side effects (`submit_command`, `request_paint`, `request_focus`,
`set_active`, `resign_focus`, `set_handled`) are recorded in an explicit
`CtxEffects` record returned next to the mutated state.
-/

namespace Logicism

/-- Rust: `druid::Vec2` (the operations used by component.rs). -/
structure Vec2 where
  x : ℚ
  y : ℚ
deriving DecidableEq, Repr

/-- Rust: `druid::Point` (the operations used by component.rs). -/
structure Point where
  x : ℚ
  y : ℚ
deriving DecidableEq, Repr

/-- Rust: `druid::Size`. -/
structure Size where
  width : ℚ
  height : ℚ
deriving DecidableEq, Repr

instance : HSub Point Vec2 Point :=
  ⟨fun p v => ⟨p.x - v.x, p.y - v.y⟩⟩

instance : HSub Point Point Vec2 :=
  ⟨fun p q => ⟨p.x - q.x, p.y - q.y⟩⟩

/-- Rust: `druid::Rect` restricted to the constructors/accessors used:
`Rect::from_origin_size`, `.origin()`, and its size. -/
structure Rect where
  origin : Point
  size : Size
deriving DecidableEq, Repr

/-- Rust: `Rect::from_origin_size`. -/
def Rect.from_origin_size (o : Point) (s : Size) : Rect :=
  ⟨o, s⟩

/-- Rust: `canvas::Coords`, an integer grid coordinate pair.
Modelled from the spec: canvas.rs is not in src/; the spec says a
GridCoordinate is an integer pair. -/
structure Coords where
  x : ℤ
  y : ℤ
deriving DecidableEq, Repr

/-- Rust: `Coords::new`. -/
def Coords.new (x y : ℤ) : Coords :=
  ⟨x, y⟩

/-- Modelled from the spec: `Coords::to_canvas_space` from the missing
canvas.rs — "converts to canvas space via a fixed scale factor".  The
scale is passed explicitly since the spec does not fix its value. -/
def Coords.to_canvas_space (scale : ℚ) (c : Coords) : Point :=
  ⟨c.x * scale, c.y * scale⟩

/-- Modelled from the spec: `Coords::from_canvas_space` from the missing
canvas.rs — "back via rounding to nearest integer (snap-to-grid)". -/
def Coords.from_canvas_space (scale : ℚ) (p : Point) : Coords :=
  ⟨round (p.x / scale), round (p.y / scale)⟩

/-- Rust: `enum Orientation`, component.rs lines 13-19. -/
inductive Orientation where
  | North
  | East
  | South
  | West
deriving DecidableEq, Repr

/-- Rust: `struct ComponentType`, component.rs lines 32-39.  The parsed
`SvgData` icon is modelled by its resource path. -/
structure ComponentType where
  size : Size
  anchor_offset : Vec2
  icon : String
  input_pins : List Coords
  output_pins : List Coords
deriving DecidableEq, Repr

/-- Rust: the `not_gate` template built in `ComponentType::enumerate`. -/
def not_gate : ComponentType where
  size := ⟨24, 48⟩
  anchor_offset := ⟨12, 32⟩
  icon := "../res/not_gate.svg"
  input_pins := [Coords.new 0 1]
  output_pins := [Coords.new 0 (-2)]

/-- Rust: the `and_gate` template built in `ComponentType::enumerate`. -/
def and_gate : ComponentType where
  size := ⟨48, 48⟩
  anchor_offset := ⟨24, 32⟩
  icon := "../res/and_gate.svg"
  input_pins := [Coords.new (-1) 1, Coords.new 1 1]
  output_pins := [Coords.new 0 (-2)]

/-- Rust: the `or_gate` template built in `ComponentType::enumerate`. -/
def or_gate : ComponentType where
  size := ⟨48, 48⟩
  anchor_offset := ⟨24, 32⟩
  icon := "../res/or_gate.svg"
  input_pins := [Coords.new (-1) 1, Coords.new 1 1]
  output_pins := [Coords.new 0 (-2)]

/-- Rust: the `nand_gate` template built in `ComponentType::enumerate`. -/
def nand_gate : ComponentType where
  size := ⟨48, 48⟩
  anchor_offset := ⟨24, 32⟩
  icon := "../res/nand_gate.svg"
  input_pins := [Coords.new (-1) 1, Coords.new 1 1]
  output_pins := [Coords.new 0 (-2)]

/-- Rust: `ComponentType::enumerate`, component.rs lines 42-77. -/
def ComponentType.enumerate : List ComponentType :=
  [not_gate, and_gate, or_gate, nand_gate]

/-- Rust: `ComponentType::anchor_offset(orientation)`, component.rs
lines 79-87 (named `anchorOffset` because the field already carries the
Rust name). -/
def ComponentType.anchorOffset (ty : ComponentType) (orientation : Orientation) : Vec2 :=
  let a := ty.anchor_offset
  match orientation with
  | Orientation.North => a
  | Orientation.East => ⟨ty.size.height - a.y, a.x⟩
  | Orientation.South => ⟨ty.size.width - a.x, ty.size.height - a.y⟩
  | Orientation.West => ⟨a.y, ty.size.width - a.x⟩

/-- Rust: `ComponentType::bounding_rect`, component.rs lines 89-96. -/
def ComponentType.bounding_rect (ty : ComponentType) (scale : ℚ) (coords : Coords)
    (orientation : Orientation) : Rect :=
  let top_left := Coords.to_canvas_space scale coords - ty.anchorOffset orientation
  let size := match orientation with
    | Orientation.North | Orientation.South => ty.size
    | Orientation.East | Orientation.West => Size.mk ty.size.height ty.size.width
  Rect.from_origin_size top_left size

/-- Rust: `struct ComponentInstance`, component.rs lines 99-104. -/
structure ComponentInstance where
  coords : Coords
  ty : ComponentType
  orientation : Orientation
deriving DecidableEq, Repr

/-- Rust: `ComponentInstance::new`. -/
def ComponentInstance.new (coords : Coords) (ty : ComponentType)
    (orientation : Orientation) : ComponentInstance :=
  ⟨coords, ty, orientation⟩

/-- Rust: `ComponentInstance::bounding_rect`, component.rs lines 115-117. -/
def ComponentInstance.bounding_rect (inst : ComponentInstance) (scale : ℚ) : Rect :=
  inst.ty.bounding_rect scale inst.coords inst.orientation

/-- Rust: private `ComponentInstance::anchor_offset`, component.rs lines
144-146: always the North-orientation offset. -/
def ComponentInstance.anchor_offset (inst : ComponentInstance) : Vec2 :=
  inst.ty.anchorOffset Orientation.North

/-- Rust: `struct ComponentState`, component.rs lines 149-154 (the Rust
field `instance` is a Lean keyword, hence `inst`). -/
structure ComponentState where
  inst : ComponentInstance
  selected : Bool
  dragging : Option Vec2
deriving DecidableEq, Repr

/-- Rust: `ComponentState::new`, component.rs lines 157-163. -/
def ComponentState.new (coords : Coords) (ty : ComponentType)
    (orientation : Orientation) : ComponentState :=
  ⟨ComponentInstance.new coords ty orientation, false, none⟩

/-- Rust: the druid events handled by `Component::event`.  `MouseDown`
carries `ev.window_pos` and `ev.mods.ctrl()`; `KeyDown` carries the
`Key::Character` string; the two commands carry their payloads and the
sending widget id for `DESELECT_ALL`. -/
inductive Event where
  | MouseDown (window_pos : Point) (ctrl : Bool)
  | MouseUp
  | MouseMove (window_pos : Point)
  | KeyDown (key : String)
  | DeselectAll (originId : ℕ)
  | BeginDrag (window_pos : Point)
deriving DecidableEq, Repr

/-- The druid `EventCtx` side effects issued by `Component::event`. -/
structure CtxEffects where
  submittedDeselectAll : Option ℕ
  submittedBeginDrag : Option Point
  requestedPaint : Bool
  requestedFocus : Bool
  activeSet : Option Bool
  resignedFocus : Bool
  setHandled : Bool
deriving DecidableEq, Repr

/-- No context call made. -/
def CtxEffects.none : CtxEffects :=
  ⟨Option.none, Option.none, false, false, Option.none, false, false⟩

/-- Rust: `Component::event` (`impl Widget<ComponentState> for Component`),
component.rs lines 169-234.  `selfId` is `ctx.widget_id()`. -/
def Component.event (scale : ℚ) (selfId : ℕ) (event : Event)
    (data : ComponentState) : ComponentState × CtxEffects :=
  match event with
  | Event.MouseDown window_pos ctrl =>
      let wasSelected := data.selected
      let data := if wasSelected then data else { data with selected := true }
      (data,
        { submittedDeselectAll := if !wasSelected && !ctrl then some selfId else none
          submittedBeginDrag := some window_pos
          requestedPaint := !wasSelected
          requestedFocus := true
          activeSet := none
          resignedFocus := false
          setHandled := true })
  | Event.MouseUp =>
      ({ data with dragging := none },
        { CtxEffects.none with activeSet := some false })
  | Event.MouseMove window_pos =>
      match data.dragging with
      | some mouse_offset =>
          ({ data with inst :=
              { data.inst with
                  coords := Coords.from_canvas_space scale (window_pos - mouse_offset) } },
            CtxEffects.none)
      | none => (data, CtxEffects.none)
  | Event.KeyDown key =>
      let orientation :=
        if key = "w" then Orientation.North
        else if key = "a" then Orientation.West
        else if key = "s" then Orientation.South
        else if key = "d" then Orientation.East
        else data.inst.orientation
      if orientation ≠ data.inst.orientation then
        ({ data with inst := { data.inst with orientation := orientation } },
          { CtxEffects.none with requestedPaint := true })
      else (data, CtxEffects.none)
  | Event.DeselectAll originId =>
      if originId ≠ selfId then
        ({ data with selected := false },
          { CtxEffects.none with
              activeSet := some false
              resignedFocus := true
              requestedPaint := true })
      else (data, CtxEffects.none)
  | Event.BeginDrag window_pos =>
      if data.selected then
        ({ data with
            dragging := some (window_pos - data.inst.anchor_offset
              - (data.inst.bounding_rect scale).origin) },
          { CtxEffects.none with activeSet := some true })
      else (data, CtxEffects.none)

/-- Folding `Component::event` over a list of delivered events, keeping
only the state (the canvas owns the context). -/
def Component.run (scale : ℚ) (selfId : ℕ) (events : List Event)
    (data : ComponentState) : ComponentState :=
  events.foldl (fun s e => (Component.event scale selfId e s).1) data

/-- The spec's state-shape invariant: the three interaction states
`Idle` (selected=false, dragOffset=none), `Selected` (true, none) and
`Dragging` (true, some) are exactly the states with
`dragOffset set → selected`. -/
def stateInv (s : ComponentState) : Prop :=
  s.dragging = none ∨ s.selected = true

/-- Holds when, along the run of `events` from `s`, no `DeselectAll`
from another component is delivered while a drag offset is set. -/
def noForeignDeselectMidDrag (scale : ℚ) (selfId : ℕ) :
    ComponentState → List Event → Bool
  | _, [] => true
  | s, e :: rest =>
      (match e with
        | Event.DeselectAll originId => originId == selfId || s.dragging.isNone
        | _ => true)
      && noForeignDeselectMidDrag scale selfId (Component.event scale selfId e s).1 rest

/-- A NOT gate freshly placed at the grid origin: concrete test fixture. -/
def sample0 : ComponentState :=
  ComponentState.new (Coords.new 0 0) not_gate Orientation.North

/-- The fixture after selection. -/
def sampleSelected : ComponentState :=
  { sample0 with selected := true }

/-- The fixture mid-drag, with drag offset (3, 4). -/
def sampleDragging : ComponentState :=
  { sampleSelected with dragging := some ⟨3, 4⟩ }

/-- C7: `anchorOffset` returns, for a type of North-size (w,h) and anchor
`a`: `a` at North, `(h - a.y, a.x)` at East, `(w - a.x, h - a.y)` at
South (point reflection through the footprint's center), and
`(a.y, w - a.x)` at West. -/
theorem c7_anchor_offset (ty : ComponentType) :
    ty.anchorOffset Orientation.North = ty.anchor_offset ∧
    ty.anchorOffset Orientation.East =
      ⟨ty.size.height - ty.anchor_offset.y, ty.anchor_offset.x⟩ ∧
    ty.anchorOffset Orientation.South =
      ⟨ty.size.width - ty.anchor_offset.x, ty.size.height - ty.anchor_offset.y⟩ ∧
    ty.anchorOffset Orientation.West =
      ⟨ty.anchor_offset.y, ty.size.width - ty.anchor_offset.x⟩ :=
  ⟨rfl, rfl, rfl, rfl⟩

/-- C8: for every type, grid coordinate and orientation, `bounding_rect`
is total with top-left corner `to_canvas_space c - anchorOffset o`, and
its size is the declared (w,h) for North/South and the swapped (h,w)
for East/West. -/
theorem c8_bounding_rect (scale : ℚ) (ty : ComponentType) (c : Coords) :
    (∀ o : Orientation, (ty.bounding_rect scale c o).origin =
      Coords.to_canvas_space scale c - ty.anchorOffset o) ∧
    (ty.bounding_rect scale c Orientation.North).size = ty.size ∧
    (ty.bounding_rect scale c Orientation.South).size = ty.size ∧
    (ty.bounding_rect scale c Orientation.East).size =
      ⟨ty.size.height, ty.size.width⟩ ∧
    (ty.bounding_rect scale c Orientation.West).size =
      ⟨ty.size.height, ty.size.width⟩ :=
  ⟨fun o => by cases o <;> rfl, rfl, rfl, rfl, rfl⟩

/-- C9: `enumerate` returns the templates in the order NOT, AND, OR,
NAND with exactly the tabulated geometry: NOT is 24×48 with anchor
(12,32), input pin (0,1) and output pin (0,-2); AND, OR and NAND are
48×48 with anchor (24,32), input pins (-1,1),(1,1) and output pin
(0,-2). -/
theorem c9_enumerate :
    ComponentType.enumerate.map
        (fun t => (t.icon, t.size, t.anchor_offset, t.input_pins, t.output_pins)) =
      [("../res/not_gate.svg", ⟨24, 48⟩, ⟨12, 32⟩,
          [Coords.new 0 1], [Coords.new 0 (-2)]),
       ("../res/and_gate.svg", ⟨48, 48⟩, ⟨24, 32⟩,
          [Coords.new (-1) 1, Coords.new 1 1], [Coords.new 0 (-2)]),
       ("../res/or_gate.svg", ⟨48, 48⟩, ⟨24, 32⟩,
          [Coords.new (-1) 1, Coords.new 1 1], [Coords.new 0 (-2)]),
       ("../res/nand_gate.svg", ⟨48, 48⟩, ⟨24, 32⟩,
          [Coords.new (-1) 1, Coords.new 1 1], [Coords.new 0 (-2)])] :=
  rfl

/-- C10: a `DeselectAll` whose origin id equals the component's own id
leaves the whole state unchanged (selected, drag offset, coords,
orientation, type) and issues no context call. -/
theorem c10_deselect_self (scale : ℚ) (selfId : ℕ) (data : ComponentState) :
    Component.event scale selfId (Event.DeselectAll selfId) data =
      (data, CtxEffects.none) := by
  simp [Component.event]

/-- C4: `BeginDrag(pos)` while selected sets the drag offset to
`pos - anchorOffset(North) - bounding_rect().origin` (the North anchor
offset, regardless of current orientation) and activates, leaving all
other fields unchanged; while not selected it is a complete no-op. -/
theorem c4_begin_drag (scale : ℚ) (selfId : ℕ) (pos : Point) (data : ComponentState) :
    (data.selected = true →
      Component.event scale selfId (Event.BeginDrag pos) data =
        ({ data with
            dragging := some (pos - data.inst.ty.anchorOffset Orientation.North
              - (data.inst.ty.bounding_rect scale data.inst.coords
                  data.inst.orientation).origin) },
          { CtxEffects.none with activeSet := some true })) ∧
    (data.selected = false →
      Component.event scale selfId (Event.BeginDrag pos) data =
        (data, CtxEffects.none)) := by
  constructor <;> intro h <;>
    simp [Component.event, h, ComponentInstance.anchor_offset,
      ComponentInstance.bounding_rect]

/-- C4 witness: concrete instantiation at the selected and at the fresh
fixture. -/
theorem c4_witness :
    sampleSelected.selected = true ∧
    Component.event 1 0 (Event.BeginDrag ⟨5, 7⟩) sampleSelected =
      ({ sampleSelected with
          dragging := some (Point.mk 5 7
            - sampleSelected.inst.ty.anchorOffset Orientation.North
            - (sampleSelected.inst.ty.bounding_rect 1 sampleSelected.inst.coords
                sampleSelected.inst.orientation).origin) },
        { CtxEffects.none with activeSet := some true }) ∧
    sample0.selected = false ∧
    Component.event 1 0 (Event.BeginDrag ⟨5, 7⟩) sample0 =
      (sample0, CtxEffects.none) :=
  ⟨rfl, (c4_begin_drag 1 0 ⟨5, 7⟩ sampleSelected).1 rfl, rfl,
    (c4_begin_drag 1 0 ⟨5, 7⟩ sample0).2 rfl⟩

/-- C6: `KeyDown` maps w/a/s/d to absolute orientations North, West,
South, East from any starting state; any other key leaves state and
context untouched; pressing w twice ends at North and pressing a, s, d
ends at East. -/
theorem c6_keydown (scale : ℚ) (selfId : ℕ) (data : ComponentState) (key : String) :
    (Component.event scale selfId (Event.KeyDown "w") data).1.inst.orientation
      = Orientation.North ∧
    (Component.event scale selfId (Event.KeyDown "a") data).1.inst.orientation
      = Orientation.West ∧
    (Component.event scale selfId (Event.KeyDown "s") data).1.inst.orientation
      = Orientation.South ∧
    (Component.event scale selfId (Event.KeyDown "d") data).1.inst.orientation
      = Orientation.East ∧
    (key ≠ "w" → key ≠ "a" → key ≠ "s" → key ≠ "d" →
      Component.event scale selfId (Event.KeyDown key) data = (data, CtxEffects.none)) ∧
    (Component.run scale selfId
        [Event.KeyDown "w", Event.KeyDown "w"] data).inst.orientation
      = Orientation.North ∧
    (Component.run scale selfId
        [Event.KeyDown "a", Event.KeyDown "s", Event.KeyDown "d"] data).inst.orientation
      = Orientation.East := by
  rcases data with ⟨⟨c, ty, o⟩, sel, drag⟩
  refine ⟨?_, ?_, ?_, ?_, ?_, ?_, ?_⟩
  · cases o <;> simp [Component.event]
  · cases o <;> simp [Component.event]
  · cases o <;> simp [Component.event]
  · cases o <;> simp [Component.event]
  · intro h1 h2 h3 h4
    simp [Component.event, h1, h2, h3, h4]
  · cases o <;> simp [Component.run, Component.event]
  · cases o <;> simp [Component.run, Component.event]

/-- C6 witness: an unmapped key on the concrete fixture is a no-op. -/
theorem c6_witness :
    "x" ≠ "w" ∧
    Component.event 1 0 (Event.KeyDown "x") sample0 = (sample0, CtxEffects.none) :=
  ⟨by decide,
    (c6_keydown 1 0 sample0 "x").2.2.2.2.1
      (by decide) (by decide) (by decide) (by decide)⟩

/-- C1 counterexample: a foreign `DeselectAll` delivered mid-drag sets
`selected` to false but does NOT clear the drag offset, so the claim's
"clears dragOffset ... putting the component in the Idle state" fails. -/
theorem c1_counterexample :
    (Component.event 1 0 (Event.DeselectAll 1) sampleDragging).1.selected = false ∧
    (Component.event 1 0 (Event.DeselectAll 1) sampleDragging).1.dragging
      = some ⟨3, 4⟩ :=
  ⟨rfl, rfl⟩

/-- C1 amended: a foreign `DeselectAll` sets `selected` to false,
deactivates, resigns focus and requests repaint, leaving coords,
orientation AND the drag offset unchanged (the DESELECT_ALL arm never
touches `dragging`). -/
theorem c1_deselect_foreign (scale : ℚ) (selfId originId : ℕ)
    (data : ComponentState) (h : originId ≠ selfId) :
    Component.event scale selfId (Event.DeselectAll originId) data =
      ({ data with selected := false },
        { CtxEffects.none with
            activeSet := some false
            resignedFocus := true
            requestedPaint := true }) := by
  simp [Component.event, h]

/-- C1 witness: concrete instantiation at the selected fixture. -/
theorem c1_witness :
    (1 : ℕ) ≠ 0 ∧
    Component.event 1 0 (Event.DeselectAll 1) sampleSelected =
      ({ sampleSelected with selected := false },
        { CtxEffects.none with
            activeSet := some false
            resignedFocus := true
            requestedPaint := true }) :=
  ⟨by decide, c1_deselect_foreign 1 0 1 sampleSelected (by decide)⟩

/-- C2 counterexample: a `MouseDown` without ctrl on an
already-selected component submits no `DeselectAll`, refuting "whenever
the ctrl modifier is absent, a DeselectAll broadcast ... is
submitted". -/
theorem c2_counterexample :
    sampleSelected.selected = true ∧
    (Component.event 1 0 (Event.MouseDown ⟨5, 7⟩ false)
        sampleSelected).2.submittedDeselectAll = none :=
  ⟨rfl, rfl⟩

/-- C2 amended: every `MouseDown` sets `selected`, submits
`BeginDrag(pos)` and requests focus; `DeselectAll(selfId)` is submitted
exactly when the component was not already selected and ctrl is absent,
and a component receiving that broadcast with a different id loses its
selection. -/
theorem c2_mouse_down (scale : ℚ) (selfId : ℕ) (pos : Point) (ctrl : Bool)
    (data : ComponentState) :
    (Component.event scale selfId (Event.MouseDown pos ctrl) data).1.selected = true ∧
    (Component.event scale selfId (Event.MouseDown pos ctrl) data).2.submittedBeginDrag
      = some pos ∧
    (Component.event scale selfId (Event.MouseDown pos ctrl) data).2.requestedFocus
      = true ∧
    (Component.event scale selfId (Event.MouseDown pos ctrl) data).2.submittedDeselectAll
      = (if data.selected = false ∧ ctrl = false then some selfId else none) ∧
    (∀ otherId (t : ComponentState), otherId ≠ selfId →
      (Component.event scale otherId (Event.DeselectAll selfId) t).1.selected = false) := by
  refine ⟨?_, ?_, ?_, ?_, ?_⟩
  · rcases data with ⟨inst, sel, drag⟩
    cases sel <;> simp [Component.event]
  · rfl
  · rfl
  · rcases data with ⟨inst, sel, drag⟩
    cases sel <;> cases ctrl <;> simp [Component.event]
  · intro otherId t h
    simp [Component.event, Ne.symm h]

/-- C2 witness: concrete instantiation — first click selects and
submits, and a second component receiving the broadcast deselects. -/
theorem c2_witness :
    (Component.event 1 0 (Event.MouseDown ⟨5, 7⟩ false) sample0).1.selected = true ∧
    (1 : ℕ) ≠ 0 ∧
    (Component.event 1 1 (Event.DeselectAll 0) sampleSelected).1.selected = false :=
  ⟨(c2_mouse_down 1 0 ⟨5, 7⟩ false sample0).1, by decide,
    (c2_mouse_down 1 0 ⟨5, 7⟩ false sample0).2.2.2.2 1 sampleSelected (by decide)⟩

/-- C5 counterexample: a `KeyDown` delivered mid-drag (the component is
focused throughout a drag) changes the orientation while the drag
offset stays set, refuting "during a drag the orientation never changes
under any delivered event". -/
theorem c5_counterexample :
    sampleDragging.dragging = some ⟨3, 4⟩ ∧
    sampleDragging.inst.orientation = Orientation.North ∧
    (Component.event 1 0 (Event.KeyDown "a") sampleDragging).1.dragging
      = some ⟨3, 4⟩ ∧
    (Component.event 1 0 (Event.KeyDown "a") sampleDragging).1.inst.orientation
      = Orientation.West :=
  ⟨rfl, rfl, rfl, rfl⟩

/-- C5 amended: while the drag offset is set, every `MouseMove(pos)`
replaces coords with `from_canvas_space (pos - dragOffset)` (grid
snapped), leaving selected, drag offset and orientation unchanged; and
no event other than a `KeyDown` ever changes the orientation. -/
theorem c5_drag (scale : ℚ) (selfId : ℕ) (data : ComponentState) :
    (∀ (pos : Point) (off : Vec2), data.dragging = some off →
      Component.event scale selfId (Event.MouseMove pos) data =
        ({ data with
            inst := { data.inst with
              coords := Coords.from_canvas_space scale (pos - off) } },
          CtxEffects.none)) ∧
    (∀ e : Event, (∀ k, e ≠ Event.KeyDown k) →
      (Component.event scale selfId e data).1.inst.orientation
        = data.inst.orientation) := by
  constructor
  · intro pos off h
    simp [Component.event, h]
  · intro e he
    cases e with
    | MouseDown pos ctrl =>
        rcases data with ⟨inst, sel, drag⟩
        cases sel <;> simp [Component.event]
    | MouseUp => rfl
    | MouseMove pos =>
        rcases data with ⟨inst, sel, drag⟩
        cases drag <;> simp [Component.event]
    | KeyDown k => exact absurd rfl (he k)
    | DeselectAll originId =>
        by_cases h : originId = selfId <;> simp [Component.event, h]
    | BeginDrag pos =>
        rcases data with ⟨inst, sel, drag⟩
        cases sel <;> simp [Component.event]

/-- C5 witness: a concrete mouse move mid-drag snaps the coords, and a
concrete `MouseUp` leaves the orientation alone. -/
theorem c5_witness :
    sampleDragging.dragging = some ⟨3, 4⟩ ∧
    Component.event 1 0 (Event.MouseMove ⟨10, 10⟩) sampleDragging =
      ({ sampleDragging with
          inst := { sampleDragging.inst with
            coords := Coords.from_canvas_space 1 (Point.mk 10 10 - Vec2.mk 3 4) } },
        CtxEffects.none) ∧
    (Component.event 1 0 Event.MouseUp sampleDragging).1.inst.orientation
      = sampleDragging.inst.orientation :=
  ⟨rfl, (c5_drag 1 0 sampleDragging).1 ⟨10, 10⟩ ⟨3, 4⟩ rfl,
    (c5_drag 1 0 sampleDragging).2 Event.MouseUp (fun _ h => Event.noConfusion h)⟩

/-- C3 counterexample: from the initial state, MouseDown, BeginDrag and
then a foreign DeselectAll reach a state with `selected = false` and
the drag offset still set — none of Idle, Selected, Dragging. -/
theorem c3_counterexample :
    ¬ stateInv (Component.run 1 0
      [Event.MouseDown ⟨5, 7⟩ false, Event.BeginDrag ⟨5, 7⟩, Event.DeselectAll 1]
      (ComponentState.new (Coords.new 0 0) not_gate Orientation.North)) := by
  simp only [stateInv]
  decide

/-- Every single handled event preserves the state-shape invariant,
except a foreign `DeselectAll` delivered while the drag offset is set. -/
theorem stateInv_step (scale : ℚ) (selfId : ℕ) (e : Event) (s : ComponentState)
    (hinv : stateInv s)
    (hde : ∀ originId, e = Event.DeselectAll originId → originId ≠ selfId →
      s.dragging = none) :
    stateInv (Component.event scale selfId e s).1 := by
  cases e with
  | MouseDown pos ctrl =>
      rcases s with ⟨inst, sel, drag⟩
      cases sel
      · exact Or.inr rfl
      · exact hinv
  | MouseUp => exact Or.inl rfl
  | MouseMove pos =>
      rcases s with ⟨inst, sel, drag⟩
      cases drag
      · exact hinv
      · exact hinv
  | KeyDown k =>
      rcases s with ⟨inst, sel, drag⟩
      have h1 : (Component.event scale selfId (Event.KeyDown k)
          ⟨inst, sel, drag⟩).1.dragging = drag := by
        simp only [Component.event]
        repeat' split
        all_goals rfl
      have h2 : (Component.event scale selfId (Event.KeyDown k)
          ⟨inst, sel, drag⟩).1.selected = sel := by
        simp only [Component.event]
        repeat' split
        all_goals rfl
      rw [stateInv, h1, h2]
      exact hinv
  | DeselectAll originId =>
      by_cases h : originId = selfId
      · simpa [Component.event, h] using hinv
      · have hdrag := hde originId rfl h
        simp [Component.event, h, stateInv, hdrag]
  | BeginDrag pos =>
      rcases s with ⟨inst, sel, drag⟩
      cases sel
      · exact hinv
      · exact Or.inr rfl

/-- The invariant is preserved along any run in which no foreign
`DeselectAll` arrives mid-drag. -/
theorem stateInv_run (scale : ℚ) (selfId : ℕ) (events : List Event)
    (s : ComponentState) (hinv : stateInv s)
    (hgood : noForeignDeselectMidDrag scale selfId s events = true) :
    stateInv (Component.run scale selfId events s) := by
  induction events generalizing s with
  | nil => exact hinv
  | cons e rest ih =>
      refine ih (Component.event scale selfId e s).1
        (stateInv_step scale selfId e s hinv ?_) ?_
      · intro originId heq hne
        subst heq
        simp only [noForeignDeselectMidDrag, Bool.and_eq_true, beq_iff_eq,
          Bool.or_eq_true, Option.isNone_iff_eq_none] at hgood
        rcases hgood.1 with h | h
        · exact absurd h hne
        · exact h
      · cases e <;>
          simp only [noForeignDeselectMidDrag, Bool.and_eq_true] at hgood <;>
          exact hgood.2

/-- C3 amended: from the initial state (selected=false, dragOffset=none),
along any sequence of handled events in which no foreign `DeselectAll`
is delivered while the drag offset is set, every reached state is one of
Idle, Selected or Dragging (dragOffset set only while selected).  A
foreign `DeselectAll` delivered mid-drag instead clears `selected` while
leaving the drag offset set, a fourth shape. -/
theorem c3_invariant (scale : ℚ) (selfId : ℕ) (c : Coords) (ty : ComponentType)
    (o : Orientation) (events : List Event)
    (hgood : noForeignDeselectMidDrag scale selfId
      (ComponentState.new c ty o) events = true) :
    stateInv (Component.run scale selfId events (ComponentState.new c ty o)) :=
  stateInv_run scale selfId events (ComponentState.new c ty o) (Or.inl rfl) hgood

/-- C3 witness: a full click-drag-release gesture followed by a foreign
DeselectAll satisfies the side condition and lands in a legal state. -/
theorem c3_witness :
    noForeignDeselectMidDrag 1 0
      (ComponentState.new (Coords.new 0 0) not_gate Orientation.North)
      [Event.MouseDown ⟨5, 7⟩ false, Event.BeginDrag ⟨5, 7⟩, Event.MouseUp,
        Event.DeselectAll 1] = true ∧
    stateInv (Component.run 1 0
      [Event.MouseDown ⟨5, 7⟩ false, Event.BeginDrag ⟨5, 7⟩, Event.MouseUp,
        Event.DeselectAll 1]
      (ComponentState.new (Coords.new 0 0) not_gate Orientation.North)) :=
  ⟨by decide,
    c3_invariant 1 0 (Coords.new 0 0) not_gate Orientation.North
      [Event.MouseDown ⟨5, 7⟩ false, Event.BeginDrag ⟨5, 7⟩, Event.MouseUp,
        Event.DeselectAll 1] (by decide)⟩

end Logicism
